import Mathlib

/-!
Verification of the stdnum-js excerpt: the South African TIN module
(src/no/kontonr.ts) and the Andorra NRT module, against the shared
validation-framework specification.

Strings are modelled as Lean `String`s manipulated through their character
lists (`String.data`); the code is ASCII throughout, so character lists are a
faithful model of JS UTF-16 strings here.
-/

/-- Error kinds of the library's exception classes (src/exceptions): the four
error taxonomy kinds of the spec. -/
inductive ErrorKind where
  | InvalidFormat
  | InvalidLength
  | InvalidChecksum
  | InvalidComponent
deriving DecidableEq

/-- The `ValidateReturn` shape of src/types:
`{isValid: bool, compact?: text, isIndividual?: bool, isCompany?: bool, error?: ErrorKind}`.
Optional fields are `Option`s, mirroring the TS record where absent fields are
simply not set. -/
structure ValidateReturn where
  isValid : Bool
  compact : Option String
  isIndividual : Option Bool
  isCompany : Option Bool
  error : Option ErrorKind
deriving DecidableEq

/-- Invalid result `{ isValid: false, error: e }` as written in both modules. -/
def invalidResult (e : ErrorKind) : ValidateReturn :=
  ⟨false, none, none, none, some e⟩

/-- ASCII decimal digit, by code point (48-57). -/
def isDigitChar (c : Char) : Bool := 48 ≤ c.toNat ∧ c.toNat ≤ 57

/-- ASCII letter, upper (65-90) or lower (97-122) case, by code point. -/
def isAlphaChar (c : Char) : Bool :=
  (65 ≤ c.toNat ∧ c.toNat ≤ 90) ∨ (97 ≤ c.toNat ∧ c.toNat ≤ 122)

/-- ASCII letter or digit. -/
def isAlnumChar (c : Char) : Bool := isAlphaChar c || isDigitChar c

/-- Modelled from the spec: the string normalizer `strings.cleanUnicode`
(src/util, not present under src/). It removes every character present in
`deletechars` and fails with `InvalidFormat` when any remaining character lies
outside the letters-plus-digits alphabet. Case is preserved. `value` is
returned together with the error, matching its `[value, err]` pair shape. -/
def cleanUnicode (input : String) (deletechars : String) : String × Option ErrorKind :=
  let kept := input.data.filter (fun c => ! deletechars.data.contains c)
  if kept.all isAlnumChar then (String.mk kept, none)
  else (String.mk kept, some ErrorKind.InvalidFormat)

/-- Modelled from the spec: `strings.isdigits` (src/util, not present under
src/): the cleaned value must consist only of decimal digits (the regex
`[0-9]+` needs at least one). -/
def isdigits (s : String) : Bool :=
  ¬ s.data.isEmpty ∧ s.data.all isDigitChar

/-- Modelled from the spec: `isalpha` (src/util, not present under src/): only
letters, upper or lower case (the regex `[A-Za-z]+` needs at least one). -/
def isalpha (s : String) : Bool :=
  ¬ s.data.isEmpty ∧ s.data.all isAlphaChar

/-- Splits a character list at the given cut points (absolute indices,
already normalised to `Nat`). -/
def splitAtGo (cs : List Char) (prev : Nat) : List Nat → List (List Char)
  | [] => [cs.drop prev]
  | c :: rest => (cs.drop prev).take (c - prev) :: splitAtGo cs c rest

/-- Modelled from the spec: `strings.splitAt` (src/util, not present under
src/): splits a string at the given indices, a negative index counting from
the end (JS `splitAt(value, -1)` yields the front and the final character). -/
def splitAt (s : String) (ixs : List Int) : List String :=
  let cuts := ixs.map (fun i => (if i < 0 then (s.data.length : Int) + i else i).toNat)
  (splitAtGo s.data 0 cuts).map String.mk

/-- Numeric value of a decimal digit character. -/
def digitVal (c : Char) : Nat := c.toNat - 48

/-- Modelled from the spec: `weightedSum` (src/util/checksum, not present
under src/): multiply the digit at position i (0-indexed, left to right) by
`weights[i]`, sum all products, and reduce the sum modulo `modulus`. -/
def weightedSum (value : String) (weights : List Nat) (modulus : Nat) : Nat :=
  (List.zipWith (fun c w => digitVal c * w) value.data weights).sum % modulus

/-- Luhn transform of one digit: double it and, when the double exceeds 9,
subtract 9. -/
def luhnDouble (d : Nat) : Nat :=
  if 2 * d > 9 then 2 * d - 9 else 2 * d

/-- Modelled from the spec: `luhnChecksumValidate` (src/util/checksum, not
present under src/): process the digits right to left, double every second
digit starting one left of the rightmost (check) digit, subtracting 9 from
doubles above 9, sum everything, and accept exactly when the total is 0 mod
10 (the standard Luhn validation over a string that includes its check
digit). -/
def luhnChecksumValidate (value : String) : Bool :=
  let rev := (value.data.reverse.map digitVal).enum
  (rev.map (fun p => if p.1 % 2 = 1 then luhnDouble p.2 else p.2)).sum % 10 = 0

/-- Modelled from the spec: the pattern formatter `formatPattern` (src/util,
not present under src/): walk the template left to right, a `?` placeholder
consumes the next character of the cleaned value, any other character is
emitted literally. Behaviour on a value shorter than the placeholder count is
unspecified by the spec; a starved placeholder emits nothing here. -/
def formatPatternGo : List Char → List Char → List Char
  | [], _ => []
  | '?' :: ps, v :: vs => v :: formatPatternGo ps vs
  | '?' :: ps, [] => formatPatternGo ps []
  | c :: ps, vs => c :: formatPatternGo ps vs

/-- Modelled from the spec: see `formatPatternGo`. -/
def formatPattern (pattern : String) (value : String) : String :=
  String.mk (formatPatternGo pattern.data value.data)

/-- JS `padStart(targetLength, '0')`: left-pad with zeros up to the target
length (a no-op on strings already at least that long). -/
def padStart (s : String) (targetLength : Nat) (pad : Char) : String :=
  String.mk (List.replicate (targetLength - s.data.length) pad ++ s.data)

/-- ASCII upper-casing of one character: a lower-case letter moves down 32
code points, anything else is unchanged. -/
def upChar (c : Char) : Char :=
  if 97 ≤ c.toNat ∧ c.toNat ≤ 122 then Char.ofNat (c.toNat - 32) else c

/-- JS `toLocaleUpperCase` restricted to ASCII, as used on the alphanumeric
cleaned values of these modules: upper-case every character. -/
def upperStr (s : String) : String :=
  String.mk (s.data.map upChar)

/-- JS `<` on strings: lexicographic comparison of UTF-16 code units; a
proper prefix is smaller than the longer string. -/
def strLtList : List Char → List Char → Bool
  | [], [] => false
  | [], _ :: _ => true
  | _ :: _, [] => false
  | a :: as, b :: bs =>
    if a.toNat < b.toNat then true
    else if b.toNat < a.toNat then false
    else strLtList as bs

/-- JS `a < b` on strings; `b > a` in the source is `strLt a b`. -/
def strLt (a b : String) : Bool := strLtList a.data b.data

namespace Kontonr

/-! The South Africa TIN module, src/no/kontonr.ts. -/

/-- `clean` of src/no/kontonr.ts: `cleanUnicode(input, ' -.')`, then strip a
leading `"0000"` run (`value.substr(4)`) from a successful result. -/
def clean (input : String) : String × Option ErrorKind :=
  match cleanUnicode input " -." with
  | (value, some err) => (value, some err)
  | (value, none) =>
    if value.data.take 4 = "0000".data then (String.mk (value.data.drop 4), none)
    else (value, none)

/-- `compact` of src/no/kontonr.ts: the cleaned value; the normalizer error is
thrown, modelled as `Except.error`. -/
def compact (input : String) : Except ErrorKind String :=
  match clean input with
  | (_, some err) => .error err
  | (value, none) => .ok value

/-- `format` of src/no/kontonr.ts: `splitAt(value.padStart(11, '0'), 4, 6).join('.')`,
where `value` is the first component of `clean(input)` (the error is ignored). -/
def format (input : String) : String :=
  let value := (clean input).1
  String.intercalate "." (splitAt (padStart value 11 '0') [4, 6])

/-- The weight table of the 11-digit check in src/no/kontonr.ts. -/
def kontonrWeights : List Nat := [6, 7, 8, 9, 4, 5, 6, 7, 8, 9]

/-- `validate` of src/no/kontonr.ts: clean, length 11 or 7, digits only, Luhn
check for length 7, weighted-sum mod-11 check against the last character for
length 11 (comparing `String(sum)` with the check character by plain string
equality), and a constant company classification on success. -/
def validate (input : String) : ValidateReturn :=
  match clean input with
  | (_, some error) => invalidResult error
  | (value, none) =>
    if value.data.length ≠ 11 ∧ value.data.length ≠ 7 then
      invalidResult ErrorKind.InvalidLength
    else if ¬ isdigits value then
      invalidResult ErrorKind.InvalidFormat
    else if value.data.length = 7 ∧ ¬ luhnChecksumValidate value then
      invalidResult ErrorKind.InvalidChecksum
    else if value.data.length = 11 ∧
        toString (weightedSum (String.mk (value.data.take 10)) kontonrWeights 11)
          ≠ String.mk (value.data.drop 10) then
      invalidResult ErrorKind.InvalidChecksum
    else
      ⟨true, some value, some false, some true, none⟩

end Kontonr

namespace Nrt

/-! The Andorra NRT module (the unnamed source file). -/

/-- `clean` of the Andorra module: `cleanUnicode(input, " -.")`. -/
def clean (input : String) : String × Option ErrorKind :=
  cleanUnicode input " -."

/-- `compact` of the Andorra module: the cleaned value upper-cased; the
normalizer error is thrown, modelled as `Except.error`. -/
def compact (input : String) : Except ErrorKind String :=
  match clean input with
  | (_, some err) => .error err
  | (value, none) => .ok (upperStr value)

/-- `format` of the Andorra module: `formatPattern("?-??????-?", this.compact(input))`;
the `compact` failure propagates. -/
def format (input : String) : Except ErrorKind String :=
  match compact input with
  | .error err => .error err
  | .ok value => .ok (formatPattern "?-??????-?" value)

/-- `validate` of the Andorra module: clean, length 8, alphabetic first and
last characters, digit middle, leading character in the `"ACDEFGLOPU"`
allow-list, numeric sub-range exclusions for leading `F` and for leading `A`
or `L`, classification by whether the leading character is in `"AF"`. String
comparison (`mid > "699999"`) is JS lexicographic comparison of characters. -/
def validate (input : String) : ValidateReturn :=
  match clean input with
  | (_, some error) => invalidResult error
  | (v, none) =>
    if v.data.length ≠ 8 then
      invalidResult ErrorKind.InvalidLength
    else if ¬ isalpha (String.mk (v.data.take 1)) ∨
        ¬ isalpha (String.mk (v.data.drop (v.data.length - 1))) then
      invalidResult ErrorKind.InvalidFormat
    else if ¬ isdigits (String.mk ((v.data.drop 1).take (v.data.length - 2))) then
      invalidResult ErrorKind.InvalidFormat
    else if ¬ "ACDEFGLOPU".data.contains (v.data.getD 0 ' ') then
      invalidResult ErrorKind.InvalidComponent
    else if v.data.getD 0 ' ' = 'F' ∧
        strLt "699999" (String.mk ((v.data.drop 1).take (v.data.length - 2))) then
      invalidResult ErrorKind.InvalidComponent
    else if "AL".data.contains (v.data.getD 0 ' ') ∧
        strLt "699999" (String.mk ((v.data.drop 1).take (v.data.length - 2))) ∧
        strLt (String.mk ((v.data.drop 1).take (v.data.length - 2))) "800000" then
      invalidResult ErrorKind.InvalidComponent
    else
        ⟨true, some v, some ("AF".data.contains (v.data.getD 0 ' ')),
          some (! "AF".data.contains (v.data.getD 0 ' ')), none⟩

end Nrt

/-- Exactly one of the two classification flags is set and true. -/
def exclusiveClassification (r : ValidateReturn) : Bool :=
  (r.isIndividual == some true && r.isCompany == some false) ||
  (r.isIndividual == some false && r.isCompany == some true)

/-- Result well-formedness: a valid result carries all success fields and no
error; an invalid result carries exactly one error kind and no success
fields. -/
def wellFormedResult (r : ValidateReturn) : Bool :=
  (r.isValid && r.error == none && r.compact.isSome &&
    r.isIndividual.isSome && r.isCompany.isSome) ||
  (!r.isValid && r.error.isSome && r.compact == none &&
    r.isIndividual == none && r.isCompany == none)

/-! ## Result-shape helpers -/

/-- Every South Africa validate result is either an `invalidResult` or the
fully populated company classification. -/
theorem kontonr_validate_shape (input : String) :
    (∃ e, Kontonr.validate input = invalidResult e) ∨
    (∃ v, Kontonr.validate input = ⟨true, some v, some false, some true, none⟩) := by
  unfold Kontonr.validate
  rcases h : Kontonr.clean input with ⟨value, err⟩
  cases err with
  | some e => exact Or.inl ⟨e, rfl⟩
  | none =>
    (repeat' split) <;> first
      | exact Or.inl ⟨_, rfl⟩
      | exact Or.inr ⟨_, rfl⟩

/-- Every Andorra validate result is either an `invalidResult` or a fully
populated record whose company flag is the negation of the individual flag. -/
theorem nrt_validate_shape (input : String) :
    (∃ e, Nrt.validate input = invalidResult e) ∨
    (∃ v b, Nrt.validate input = ⟨true, some v, some b, some (!b), none⟩) := by
  unfold Nrt.validate
  rcases h : Nrt.clean input with ⟨value, err⟩
  cases err with
  | some e => exact Or.inl ⟨e, rfl⟩
  | none =>
    (repeat' split) <;> first
      | exact Or.inl ⟨_, rfl⟩
      | exact Or.inr ⟨_, _, rfl⟩

/-! ## Claim theorems -/

/-- Claim C3: the South Africa validate accepts cleaned lengths 11 or 7 only; a
cleaned value of any other length yields `InvalidLength` (no checksum branch
is reached: the result is `InvalidLength`, not `InvalidChecksum` or
`InvalidFormat`, whatever the characters). -/
theorem kontonr_length_dispatch (input v : String)
    (hc : Kontonr.clean input = (v, none))
    (h11 : v.data.length ≠ 11) (h7 : v.data.length ≠ 7) :
    Kontonr.validate input = invalidResult ErrorKind.InvalidLength := by
  unfold Kontonr.validate
  rw [hc]
  exact if_pos ⟨h11, h7⟩

/-- Witness for C3 at the three-character input "123". -/
theorem kontonr_length_dispatch_witness :
    Kontonr.clean "123" = ("123", none) ∧
    Kontonr.validate "123" = invalidResult ErrorKind.InvalidLength :=
  ⟨rfl, kontonr_length_dispatch "123" "123" rfl (by decide) (by decide)⟩

/-- Claim C10: whenever the South Africa validate returns a valid result, the
classification is the constant individual = false, company = true. -/
theorem kontonr_classification_constant (input : String)
    (h : (Kontonr.validate input).isValid = true) :
    (Kontonr.validate input).isIndividual = some false ∧
    (Kontonr.validate input).isCompany = some true := by
  rcases kontonr_validate_shape input with ⟨e, he⟩ | ⟨v, hv⟩
  · rw [he] at h
    exact absurd h (by simp [invalidResult])
  · rw [hv]
    exact ⟨rfl, rfl⟩

/-- Witness for C10 at a checksum-valid 11-digit value. -/
theorem kontonr_classification_constant_witness :
    (Kontonr.validate "01234567892").isIndividual = some false ∧
    (Kontonr.validate "01234567892").isCompany = some true :=
  kontonr_classification_constant "01234567892" rfl

/-- Claim C9: the Andorra validate is case sensitive while compact upper-cases: on
"a123456z", compact succeeds and validate accepts the compacted value, yet
validate rejects the raw value with `InvalidComponent` (the allow-list check
sees the lower-case leading character). -/
theorem nrt_case_sensitivity :
    Nrt.compact "a123456z" = Except.ok "A123456Z" ∧
    (Nrt.validate "A123456Z").isValid = true ∧
    Nrt.validate "a123456z" = invalidResult ErrorKind.InvalidComponent :=
  ⟨rfl, rfl, rfl⟩

/-- Claim C7: for every input accepted by either validate, exactly one of
`isIndividual` and `isCompany` is true — never both, never neither. -/
theorem classification_exclusive (input : String) :
    ((Kontonr.validate input).isValid = true →
      exclusiveClassification (Kontonr.validate input) = true) ∧
    ((Nrt.validate input).isValid = true →
      exclusiveClassification (Nrt.validate input) = true) := by
  constructor
  · intro h
    rcases kontonr_validate_shape input with ⟨e, he⟩ | ⟨v, hv⟩
    · rw [he] at h
      exact absurd h (by simp [invalidResult])
    · rw [hv]
      rfl
  · intro h
    rcases nrt_validate_shape input with ⟨e, he⟩ | ⟨v, b, hv⟩
    · rw [he] at h
      exact absurd h (by simp [invalidResult])
    · rw [hv]
      cases b <;> rfl

/-- Witness for C7 at concrete accepted values of each module. -/
theorem classification_exclusive_witness :
    exclusiveClassification (Kontonr.validate "01234567892") = true ∧
    exclusiveClassification (Nrt.validate "A123456Z") = true :=
  ⟨(classification_exclusive "01234567892").1 rfl,
   (classification_exclusive "A123456Z").2 rfl⟩

/-- Claim C8: validate is a total function into `ValidateReturn` for both modules
(malformed input yields an `Invalid` result, never an exception), and no
result mixes success and error fields. -/
theorem validate_total_no_partial (input : String) :
    wellFormedResult (Kontonr.validate input) = true ∧
    wellFormedResult (Nrt.validate input) = true := by
  constructor
  · rcases kontonr_validate_shape input with ⟨e, he⟩ | ⟨v, hv⟩
    · rw [he]; rfl
    · rw [hv]; rfl
  · rcases nrt_validate_shape input with ⟨e, he⟩ | ⟨v, b, hv⟩
    · rw [he]; rfl
    · rw [hv]; rfl

/-- Claim C1: an 11-digit cleaned value whose first ten digits have weighted sum 10
mod 11 is rejected with `InvalidChecksum`: the rendered remainder "10" is
compared by plain string equality against the one-character check field, a
defined mismatch (never an acceptance, and `validate` signals no error). -/
theorem kontonr_multidigit_remainder (input v : String)
    (hc : Kontonr.clean input = (v, none))
    (hlen : v.data.length = 11)
    (hdig : isdigits v = true)
    (hsum : weightedSum (String.mk (v.data.take 10)) Kontonr.kontonrWeights 11 = 10) :
    Kontonr.validate input = invalidResult ErrorKind.InvalidChecksum := by
  have hdroplen : (v.data.drop 10).length = 1 := by
    rw [List.length_drop, hlen]
  have hne : toString (weightedSum (String.mk (v.data.take 10)) Kontonr.kontonrWeights 11)
      ≠ String.mk (v.data.drop 10) := by
    rw [hsum]
    intro heq
    have h2 : (toString (10 : Nat)).data.length = 2 := rfl
    rw [heq] at h2
    rw [show (String.mk (v.data.drop 10)).data = v.data.drop 10 from rfl] at h2
    omega
  simp only [Kontonr.validate, hc]
  rw [if_neg (fun h => h.1 hlen), if_neg (not_not_intro hdig)]
  rw [if_neg (fun h => by rw [hlen] at h; exact absurd h.1 (by decide))]
  rw [if_pos ⟨hlen, hne⟩]

/-- Witness for C1: first ten digits "9000000000" have weighted sum
9 * 6 = 54 ≡ 10 (mod 11), so "90000000000" is an `InvalidChecksum` mismatch. -/
theorem kontonr_multidigit_remainder_witness :
    Kontonr.clean "90000000000" = ("90000000000", none) ∧
    weightedSum (String.mk ("90000000000".data.take 10)) Kontonr.kontonrWeights 11 = 10 ∧
    Kontonr.validate "90000000000" = invalidResult ErrorKind.InvalidChecksum :=
  ⟨rfl, rfl, kontonr_multidigit_remainder "90000000000" "90000000000" rfl rfl rfl rfl⟩

/-- Claim C4: an eight-character cleaned Andorra value with alphabetic first and
last characters, digit middle, leading 'F', and middle six digits greater
than "699999" is rejected with `InvalidComponent` (the length and alphabet
checks having passed). -/
theorem nrt_f_range_invalid_component (input v : String)
    (hc : Nrt.clean input = (v, none))
    (hlen : v.data.length = 8)
    (hfirst : isalpha (String.mk (v.data.take 1)) = true)
    (hlast : isalpha (String.mk (v.data.drop 7)) = true)
    (hmid : isdigits (String.mk ((v.data.drop 1).take 6)) = true)
    (hF : v.data.getD 0 ' ' = 'F')
    (hgt : strLt "699999" (String.mk ((v.data.drop 1).take 6)) = true) :
    Nrt.validate input = invalidResult ErrorKind.InvalidComponent := by
  simp only [Nrt.validate, hc, hlen, hF, Nat.reduceSub]
  rw [if_neg (not_not_intro rfl)]
  rw [if_neg (fun h => h.elim (fun hna => hna hfirst) (fun hnb => hnb hlast))]
  rw [if_neg (not_not_intro hmid)]
  rw [if_neg (not_not_intro (by decide : "ACDEFGLOPU".data.contains 'F' = true))]
  rw [if_pos ⟨trivial, hgt⟩]

/-- Witness for C4 at "F700000A": middle "700000" exceeds "699999". -/
theorem nrt_f_range_invalid_component_witness :
    Nrt.clean "F700000A" = ("F700000A", none) ∧
    Nrt.validate "F700000A" = invalidResult ErrorKind.InvalidComponent :=
  ⟨rfl, nrt_f_range_invalid_component "F700000A" "F700000A" rfl rfl rfl rfl rfl rfl rfl⟩

/-! ## Normalizer lemmas -/

theorem string_data_mk (l : List Char) : (String.mk l).data = l := rfl

theorem toNat_ofNat_valid (n : Nat) (h : n.isValidChar) : (Char.ofNat n).toNat = n := by
  simp only [Char.ofNat]
  rw [dif_pos h]
  rfl

theorem upChar_upChar (c : Char) : upChar (upChar c) = upChar c := by
  unfold upChar
  by_cases h : 97 ≤ c.toNat ∧ c.toNat ≤ 122
  · rw [if_pos h]
    have hv : (c.toNat - 32).isValidChar := Or.inl (by omega)
    rw [toNat_ofNat_valid _ hv]
    rw [if_neg (by omega)]
  · rw [if_neg h, if_neg h]

theorem upChar_alnum (c : Char) (h : isAlnumChar c = true) :
    isAlnumChar (upChar c) = true := by
  simp only [isAlnumChar, isAlphaChar, isDigitChar, Bool.or_eq_true,
    decide_eq_true_eq] at h ⊢
  unfold upChar
  by_cases hl : 97 ≤ c.toNat ∧ c.toNat ≤ 122
  · rw [if_pos hl]
    have hv : (c.toNat - 32).isValidChar := Or.inl (by omega)
    rw [toNat_ofNat_valid _ hv]
    exact Or.inl (Or.inl (by omega))
  · rw [if_neg hl]
    exact h

theorem alnum_not_sep (c : Char) (h : isAlnumChar c = true) :
    " -.".data.contains c = false := by
  have hd : " -.".data = [' ', '-', '.'] := rfl
  rw [hd]
  simp only [isAlnumChar, isAlphaChar, isDigitChar, Bool.or_eq_true,
    decide_eq_true_eq] at h
  simp only [List.contains_cons, List.contains_nil, Bool.or_false,
    Bool.or_eq_false_iff, beq_eq_false_iff_ne, ne_eq]
  refine ⟨?_, ?_, ?_⟩ <;> rintro rfl <;> revert h <;> decide

theorem filter_sep_eq_self (l : List Char) (h : l.all isAlnumChar = true) :
    l.filter (fun c => ! " -.".data.contains c) = l := by
  apply List.filter_eq_self.mpr
  intro a ha
  rw [Bool.not_eq_true']
  exact alnum_not_sep a (List.all_eq_true.mp h a ha)

theorem cleanUnicode_self (v : String) (h : v.data.all isAlnumChar = true) :
    cleanUnicode v " -." = (v, none) := by
  obtain ⟨l⟩ := v
  simp only [cleanUnicode]
  rw [filter_sep_eq_self l h]
  rw [if_pos h]

/-- Closed form of the South Africa clean. -/
theorem kontonr_clean_eq (x : String) :
    Kontonr.clean x =
      (if (x.data.filter (fun c => ! " -.".data.contains c)).all isAlnumChar then
        (if (x.data.filter (fun c => ! " -.".data.contains c)).take 4 = "0000".data then
          (String.mk ((x.data.filter (fun c => ! " -.".data.contains c)).drop 4), none)
        else (String.mk (x.data.filter (fun c => ! " -.".data.contains c)), none))
      else (String.mk (x.data.filter (fun c => ! " -.".data.contains c)),
            some ErrorKind.InvalidFormat)) := by
  simp only [Kontonr.clean, cleanUnicode]
  by_cases hk : (x.data.filter (fun c => ! " -.".data.contains c)).all isAlnumChar = true
  · rw [if_pos hk, if_pos hk]
  · rw [if_neg hk, if_neg hk]

theorem kontonr_compact_ok_alnum (x v : String) (h : Kontonr.compact x = Except.ok v) :
    v.data.all isAlnumChar = true := by
  unfold Kontonr.compact at h
  rw [kontonr_clean_eq] at h
  by_cases hk : (x.data.filter (fun c => ! " -.".data.contains c)).all isAlnumChar = true
  · rw [if_pos hk] at h
    by_cases hs : (x.data.filter (fun c => ! " -.".data.contains c)).take 4 = "0000".data
    · rw [if_pos hs] at h
      have h2 : Except.ok (α := String)
          (String.mk ((x.data.filter (fun c => ! " -.".data.contains c)).drop 4)) =
          Except.ok v := h
      cases h2
      apply List.all_eq_true.mpr
      intro a ha
      exact List.all_eq_true.mp hk a (List.mem_of_mem_drop ha)
    · rw [if_neg hs] at h
      have h2 : Except.ok (α := String)
          (String.mk (x.data.filter (fun c => ! " -.".data.contains c))) =
          Except.ok v := h
      cases h2
      exact hk
  · rw [if_neg hk] at h
    exact Except.noConfusion h

theorem kontonr_clean_of_clean (v : String)
    (halnum : v.data.all isAlnumChar = true)
    (hpre : v.data.take 4 ≠ "0000".data) :
    Kontonr.clean v = (v, none) := by
  rw [kontonr_clean_eq]
  rw [filter_sep_eq_self v.data halnum]
  rw [if_pos halnum, if_neg hpre]

theorem upperStr_upperStr (s : String) : upperStr (upperStr s) = upperStr s := by
  unfold upperStr
  rw [string_data_mk, List.map_map]
  congr 1
  apply List.map_congr_left
  intro a _
  exact upChar_upChar a

theorem nrt_compact_ok_spec (x v : String) (h : Nrt.compact x = Except.ok v) :
    v.data.all isAlnumChar = true ∧ upperStr v = v := by
  unfold Nrt.compact Nrt.clean at h
  simp only [cleanUnicode] at h
  by_cases hk : (x.data.filter (fun c => ! " -.".data.contains c)).all isAlnumChar = true
  · rw [if_pos hk] at h
    have h2 : Except.ok (α := String)
        (upperStr (String.mk (x.data.filter (fun c => ! " -.".data.contains c)))) =
        Except.ok v := h
    cases h2
    constructor
    · apply List.all_eq_true.mpr
      intro a ha
      rw [upperStr, string_data_mk] at ha
      obtain ⟨b, hb, rfl⟩ := List.mem_map.mp ha
      exact upChar_alnum b (List.all_eq_true.mp hk b hb)
    · exact upperStr_upperStr _
  · rw [if_neg hk] at h
    exact Except.noConfusion h

/-- Claim C2, counterexample: the South Africa compact is not idempotent. On
"00000000123" it strips one fixed "0000" prefix, giving "0000123"; compacting
that result strips again, giving "123". -/
theorem compact_idempotent_counterexample :
    Kontonr.compact "00000000123" = Except.ok "0000123" ∧
    Kontonr.compact "0000123" = Except.ok "123" ∧
    ("123" : String) ≠ "0000123" :=
  ⟨rfl, rfl, by decide⟩

/-- Claim C2, amended: the Andorra compact is idempotent on every successfully
compacted input; the South Africa compact is idempotent exactly under the
proviso that the compacted value does not itself still start with "0000"
(the clean step strips one fixed four-character prefix per call, not the
whole zero run). -/
theorem compact_idempotent_amended :
    (∀ x v, Nrt.compact x = Except.ok v → Nrt.compact v = Except.ok v) ∧
    (∀ x v, Kontonr.compact x = Except.ok v → v.data.take 4 ≠ "0000".data →
      Kontonr.compact v = Except.ok v) := by
  constructor
  · intro x v h
    obtain ⟨halnum, hup⟩ := nrt_compact_ok_spec x v h
    unfold Nrt.compact Nrt.clean
    rw [cleanUnicode_self v halnum]
    show Except.ok (upperStr v) = Except.ok v
    rw [hup]
  · intro x v h hpre
    have halnum := kontonr_compact_ok_alnum x v h
    unfold Kontonr.compact
    rw [kontonr_clean_of_clean v halnum hpre]

/-- Witness for the amended C2, at "A 123-456.z" (Andorra) and "0000 123"
(South Africa). -/
theorem compact_idempotent_amended_witness :
    Nrt.compact "A123456Z" = Except.ok "A123456Z" ∧
    Kontonr.compact "123" = Except.ok "123" :=
  ⟨compact_idempotent_amended.1 "A 123-456.z" "A123456Z" rfl,
   compact_idempotent_amended.2 "0000 123" "123" rfl (by decide)⟩

/-- Claim C6, counterexample: the South Africa format does not signal the normalizer
failure. On "!" compact fails with InvalidFormat, yet format returns a
display string built from the unvalidated cleaned value. -/
theorem format_failure_counterexample :
    Kontonr.compact "!" = Except.error ErrorKind.InvalidFormat ∧
    Kontonr.format "!" = "0000.00.0000!" :=
  ⟨rfl, rfl⟩

/-- Claim C6, amended: in the Andorra module, format fails exactly when compact
fails, propagating the same error; the South Africa format ignores the
normalizer failure and always produces a display string (see the
counterexample). -/
theorem nrt_format_error_iff (input : String) (e : ErrorKind) :
    Nrt.format input = Except.error e ↔ Nrt.compact input = Except.error e := by
  unfold Nrt.format
  cases h : Nrt.compact input with
  | error e2 => simp
  | ok val => simp

/-- Witness for the amended C6 at the rejected input "!". -/
theorem nrt_format_error_iff_witness :
    Nrt.format "!" = Except.error ErrorKind.InvalidFormat :=
  (nrt_format_error_iff "!" ErrorKind.InvalidFormat).mpr rfl

/-! ## Round-trip support -/

theorem digit_alnum (c : Char) (h : isDigitChar c = true) : isAlnumChar c = true := by
  simp only [isAlnumChar, Bool.or_eq_true]
  exact Or.inr h

theorem all_take (p : Char → Bool) (l : List Char) (n : Nat) (h : l.all p = true) :
    (l.take n).all p = true :=
  List.all_eq_true.mpr fun a ha => List.all_eq_true.mp h a (List.mem_of_mem_take ha)

theorem all_drop (p : Char → Bool) (l : List Char) (n : Nat) (h : l.all p = true) :
    (l.drop n).all p = true :=
  List.all_eq_true.mpr fun a ha => List.all_eq_true.mp h a (List.mem_of_mem_drop ha)

theorem all_digit_alnum (l : List Char) (h : l.all isDigitChar = true) :
    l.all isAlnumChar = true :=
  List.all_eq_true.mpr fun a ha => digit_alnum a (List.all_eq_true.mp h a ha)

theorem filter_sep_parts (sep1 sep2 : Char) (A B C : List Char)
    (hs1 : " -.".data.contains sep1 = true) (hs2 : " -.".data.contains sep2 = true)
    (hA : A.all isAlnumChar = true) (hB : B.all isAlnumChar = true)
    (hC : C.all isAlnumChar = true) :
    (A ++ sep1 :: (B ++ sep2 :: C)).filter (fun c => ! " -.".data.contains c)
      = A ++ (B ++ C) := by
  rw [List.filter_append, filter_sep_eq_self A hA]
  rw [List.filter_cons_of_neg (by
    intro h
    simp at h
    rw [show " -.".data = [' ', '-', '.'] from rfl] at hs1
    simp [List.contains_cons, beq_iff_eq, h.1, h.2.1, h.2.2] at hs1)]
  rw [List.filter_append, filter_sep_eq_self B hB]
  rw [List.filter_cons_of_neg (by
    intro h
    simp at h
    rw [show " -.".data = [' ', '-', '.'] from rfl] at hs2
    simp [List.contains_cons, beq_iff_eq, h.1, h.2.1, h.2.2] at hs2)]
  rw [filter_sep_eq_self C hC]

theorem splitAt_4_6 (s : String) :
    splitAt s [4, 6] = [String.mk (s.data.take 4),
      String.mk ((s.data.drop 4).take 2), String.mk (s.data.drop 6)] := rfl

theorem intercalate_dot_three (A B C : List Char) :
    (String.intercalate "." [String.mk A, String.mk B, String.mk C]).data
      = A ++ '.' :: (B ++ '.' :: C) := by
  show ((((A ++ ['.']) ++ B) ++ ['.']) ++ C) = A ++ '.' :: (B ++ '.' :: C)
  simp [List.append_assoc]

theorem kontonr_compact_ok_clean (x v : String) (h : Kontonr.compact x = Except.ok v) :
    Kontonr.clean x = (v, none) := by
  unfold Kontonr.compact at h
  cases hc : Kontonr.clean x with
  | mk value err =>
    rw [hc] at h
    cases err with
    | some e => exact Except.noConfusion h
    | none =>
      have h2 : Except.ok (α := String) value = Except.ok v := h
      cases h2
      rfl

theorem kontonr_clean_fixpoint (v : String) (h : Kontonr.clean v = (v, none)) :
    v.data.all isAlnumChar = true ∧ v.data.take 4 ≠ "0000".data := by
  rw [kontonr_clean_eq] at h
  by_cases hk : (v.data.filter (fun c => ! " -.".data.contains c)).all isAlnumChar = true
  · rw [if_pos hk] at h
    by_cases hs : (v.data.filter (fun c => ! " -.".data.contains c)).take 4 = "0000".data
    · rw [if_pos hs] at h
      exfalso
      have h1 : String.mk ((v.data.filter (fun c => ! " -.".data.contains c)).drop 4) = v :=
        congrArg Prod.fst h
      have h2 : (v.data.filter (fun c => ! " -.".data.contains c)).drop 4 = v.data :=
        congrArg String.data h1
      have hlen2 := congrArg List.length h2
      rw [List.length_drop] at hlen2
      have hle := List.length_filter_le (fun c => ! " -.".data.contains c) v.data
      have hge : 4 ≤ (v.data.filter (fun c => ! " -.".data.contains c)).length := by
        have h3 := congrArg List.length hs
        have h4 : ("0000".data).length = 4 := rfl
        rw [List.length_take, h4] at h3
        omega
      omega
    · rw [if_neg hs] at h
      have h2 : v.data.filter (fun c => ! " -.".data.contains c) = v.data :=
        congrArg String.data (congrArg Prod.fst h)
      rw [h2] at hk hs
      exact ⟨hk, hs⟩
  · rw [if_neg hk] at h
    have h2 := congrArg Prod.snd h
    exact absurd h2 (by simp)

theorem kontonr_valid_facts (v : String)
    (hc : Kontonr.clean v = (v, none))
    (hval : (Kontonr.validate v).isValid = true) :
    (v.data.length = 11 ∨ v.data.length = 7) ∧ isdigits v = true := by
  simp only [Kontonr.validate, hc] at hval
  by_cases h1 : v.data.length ≠ 11 ∧ v.data.length ≠ 7
  · rw [if_pos h1] at hval
    exact absurd hval (by simp [invalidResult])
  · rw [if_neg h1] at hval
    by_cases h2 : ¬ isdigits v = true
    · rw [if_pos h2] at hval
      exact absurd hval (by simp [invalidResult])
    · refine ⟨?_, not_not.mp h2⟩
      rcases not_and_or.mp h1 with h | h
      · exact Or.inl (not_not.mp h)
      · exact Or.inr (not_not.mp h)

theorem kontonr_format_eq (v : String) (hc : Kontonr.clean v = (v, none)) :
    (Kontonr.format v).data =
      (padStart v 11 '0').data.take 4 ++ '.' ::
        (((padStart v 11 '0').data.drop 4).take 2 ++ '.' ::
          (padStart v 11 '0').data.drop 6) := by
  simp only [Kontonr.format, hc]
  rw [splitAt_4_6]
  exact intercalate_dot_three _ _ _

theorem kontonr_roundtrip (v : String)
    (hok : Kontonr.compact v = Except.ok v)
    (hval : (Kontonr.validate v).isValid = true) :
    Kontonr.compact (Kontonr.format v) = Except.ok v := by
  have hc : Kontonr.clean v = (v, none) := kontonr_compact_ok_clean v v hok
  obtain ⟨halnum, hpre⟩ := kontonr_clean_fixpoint v hc
  obtain ⟨hlen, hdig⟩ := kontonr_valid_facts v hc hval
  have hfd := kontonr_format_eq v hc
  rcases hlen with h11 | h7
  · -- 11-digit case: the pad is a no-op and the dots come back out
    have hpad : (padStart v 11 '0').data = v.data := by
      simp [padStart, h11]
    have hBC : (v.data.drop 4).take 2 ++ v.data.drop 6 = v.data.drop 4 := by
      have h6 := List.take_append_drop 2 (v.data.drop 4)
      rw [List.drop_drop] at h6
      norm_num at h6
      exact h6
    have hABC : (Kontonr.format v).data.filter (fun c => ! " -.".data.contains c)
        = v.data := by
      rw [hfd, hpad]
      rw [filter_sep_parts '.' '.' _ _ _ (by decide) (by decide)
        (all_take _ _ _ halnum) (all_take _ _ _ (all_drop _ _ _ halnum))
        (all_drop _ _ _ halnum)]
      rw [hBC, List.take_append_drop]
    unfold Kontonr.compact
    rw [kontonr_clean_eq (Kontonr.format v)]
    rw [hABC]
    rw [if_pos halnum, if_neg hpre]
  · -- 7-digit case: the pad contributes the "0000" prefix, stripped again by clean
    have hpad : (padStart v 11 '0').data = "0000".data ++ v.data := by
      have h4 : 11 - v.data.length = 4 := by omega
      simp only [padStart, string_data_mk, h4]
      rfl
    have hA : (padStart v 11 '0').data.take 4 = "0000".data := by
      rw [hpad]
      exact List.take_left' rfl
    have hdrop4 : (padStart v 11 '0').data.drop 4 = v.data := by
      rw [hpad]
      exact List.drop_left' rfl
    have hdrop6 : (padStart v 11 '0').data.drop 6 = v.data.drop 2 := by
      rw [hpad, show (6 : Nat) = 4 + 2 from rfl, ← List.drop_drop,
        List.drop_left' (show ("0000".data).length = 4 from rfl)]
    have h0000 : ("0000".data).all isAlnumChar = true := by decide
    have hABC : (Kontonr.format v).data.filter (fun c => ! " -.".data.contains c)
        = "0000".data ++ v.data := by
      rw [hfd, hA, hdrop4, hdrop6]
      rw [filter_sep_parts '.' '.' _ _ _ (by decide) (by decide) h0000
        (all_take _ _ _ halnum) (all_drop _ _ _ halnum)]
      rw [List.take_append_drop]
    have hall : ("0000".data ++ v.data).all isAlnumChar = true := by
      rw [List.all_append, h0000, halnum]
      rfl
    unfold Kontonr.compact
    rw [kontonr_clean_eq (Kontonr.format v)]
    rw [hABC]
    rw [if_pos hall, if_pos (List.take_left' (show ("0000".data).length = 4 from rfl)),
      List.drop_left' (show ("0000".data).length = 4 from rfl)]

theorem nrt_compact_fixpoint (v : String) (h : Nrt.compact v = Except.ok v) :
    Nrt.clean v = (v, none) ∧ upperStr v = v := by
  obtain ⟨halnum, hup⟩ := nrt_compact_ok_spec v v h
  exact ⟨cleanUnicode_self v halnum, hup⟩

theorem nrt_valid_len (v : String) (hcv : Nrt.clean v = (v, none))
    (hval : (Nrt.validate v).isValid = true) : v.data.length = 8 := by
  simp only [Nrt.validate, hcv] at hval
  by_cases h1 : v.data.length ≠ 8
  · rw [if_pos h1] at hval
    exact absurd hval (by simp [invalidResult])
  · exact not_not.mp h1

theorem length_eight_cases (l : List Char) (h : l.length = 8) :
    ∃ a b c d e f g h8, l = [a, b, c, d, e, f, g, h8] := by
  rcases l with _ | ⟨a, l⟩
  · simp at h
  rcases l with _ | ⟨b, l⟩
  · simp at h
  rcases l with _ | ⟨c, l⟩
  · simp at h
  rcases l with _ | ⟨d, l⟩
  · simp at h
  rcases l with _ | ⟨e, l⟩
  · simp at h
  rcases l with _ | ⟨f, l⟩
  · simp at h
  rcases l with _ | ⟨g, l⟩
  · simp at h
  rcases l with _ | ⟨h8, l⟩
  · simp at h
  rcases l with _ | ⟨i, l⟩
  · exact ⟨a, b, c, d, e, f, g, h8, rfl⟩
  · simp at h

theorem nrt_roundtrip (v : String)
    (hok : Nrt.compact v = Except.ok v)
    (hval : (Nrt.validate v).isValid = true) :
    ∃ s, Nrt.format v = Except.ok s ∧ Nrt.compact s = Except.ok v := by
  obtain ⟨hcv, hup⟩ := nrt_compact_fixpoint v hok
  obtain ⟨halnum, -⟩ := nrt_compact_ok_spec v v hok
  have hlen := nrt_valid_len v hcv hval
  refine ⟨formatPattern "?-??????-?" v, ?_, ?_⟩
  · unfold Nrt.format
    rw [hok]
  · obtain ⟨a, b, c, d, e, f, g, h8, hv⟩ := length_eight_cases v.data hlen
    have hpat : (formatPattern "?-??????-?" v).data
        = [a] ++ '-' :: ([b, c, d, e, f, g] ++ '-' :: [h8]) := by
      simp only [formatPattern, string_data_mk, hv]
      rfl
    have ha8 := halnum
    rw [hv] at ha8
    simp only [List.all_cons, List.all_nil, Bool.and_true, Bool.and_eq_true] at ha8
    obtain ⟨ha, hb, hcc, hd, he, hf, hg, hh⟩ := ha8
    have hA : ([a] : List Char).all isAlnumChar = true := by simp [ha]
    have hB : ([b, c, d, e, f, g] : List Char).all isAlnumChar = true := by
      simp [hb, hcc, hd, he, hf, hg]
    have hC : ([h8] : List Char).all isAlnumChar = true := by simp [hh]
    unfold Nrt.compact Nrt.clean
    simp only [cleanUnicode]
    rw [hpat]
    rw [filter_sep_parts '-' '-' [a] [b, c, d, e, f, g] [h8]
      (by decide) (by decide) hA hB hC]
    rw [show ([a] ++ ([b, c, d, e, f, g] ++ [h8]) : List Char) = v.data from by simp [hv]]
    rw [if_pos halnum]
    show Except.ok (upperStr (String.mk v.data)) = Except.ok v
    rw [show String.mk v.data = v from rfl, hup]

/-- Claim C5: round-trip — for every cleaned value accepted by validate, compacting
the formatted display string recovers the value, in both modules: the South
Africa format left-pads to the 11-digit display form whose "0000" prefix the
compact strips again, and the Andorra format reinserts only dashes, which the
compact removes. -/
theorem roundtrip_compact_format :
    (∀ v, Kontonr.compact v = Except.ok v → (Kontonr.validate v).isValid = true →
      Kontonr.compact (Kontonr.format v) = Except.ok v) ∧
    (∀ v, Nrt.compact v = Except.ok v → (Nrt.validate v).isValid = true →
      ∃ s, Nrt.format v = Except.ok s ∧ Nrt.compact s = Except.ok v) :=
  ⟨kontonr_roundtrip, nrt_roundtrip⟩

/-- Witness for C5 at an 11-digit and a 7-digit South Africa value and an
Andorra value. -/
theorem roundtrip_compact_format_witness :
    Kontonr.compact (Kontonr.format "01234567892") = Except.ok "01234567892" ∧
    Kontonr.compact (Kontonr.format "1234566") = Except.ok "1234566" ∧
    (∃ s, Nrt.format "A123456Z" = Except.ok s ∧ Nrt.compact s = Except.ok "A123456Z") :=
  ⟨roundtrip_compact_format.1 "01234567892" rfl rfl,
   roundtrip_compact_format.1 "1234566" rfl rfl,
   roundtrip_compact_format.2 "A123456Z" rfl rfl⟩
